import Mathlib

/-!
Shallow embedding of the checkfs library (github.com/andreimerlescu/checkfs):
a declarative filesystem-attribute validator.  The filesystem is modelled as a
point-in-time metadata snapshot (a function from paths to stat results); the
path functions of Go's path/filepath package that the library calls
(Clean, Ext, Base, Dir) are ported below for the POSIX separator, while
Abs and Rel (which consult the process working directory) are taken as
oracle parameters.
-/

deriving instance DecidableEq for Except

namespace Checkfs

/-! ## Go path/filepath lexical helpers (POSIX separator) -/

/-- Go strings.HasPrefix on the byte/character sequence of the strings. -/
def hasPre (s pre : String) : Bool := pre.data.isPrefixOf s.data

/-- Dropping a matched initial segment never lengthens a list. -/
theorem length_dropWhile_le (p : Char → Bool) :
    ∀ l : List Char, (l.dropWhile p).length ≤ l.length := by
  intro l
  induction l with
  | nil => simp
  | cons a l ih =>
    by_cases h : p a
    · simp only [List.dropWhile_cons, h, if_true, List.length_cons]
      exact Nat.le_succ_of_le ih
    · simp [List.dropWhile_cons, h]

/-- Backtracking loop of Go path.Clean's double-dot case: after removing the
last written character c (the buffer out is kept in reverse order), keep
removing characters while the buffer is longer than dotdot and the character
just removed is not a separator. -/
def cleanBack : Char → List Char → Nat → List Char
  | c, out, dotdot =>
    if dotdot < out.length ∧ c ≠ '/' then
      match out with
      | [] => []
      | c2 :: outRest => cleanBack c2 outRest dotdot
    else out

/-- Main loop of Go path.Clean.  remaining is the unread input (reading index
r onwards), out is the output buffer in reverse order, dotdot the index up to
which double-dot backtracking may erase, rooted whether the path is absolute. -/
def cleanLoop (remaining : List Char) (out : List Char) (dotdot : Nat)
    (rooted : Bool) : List Char :=
  match remaining with
  | [] => out
  | c :: rest =>
    if c = '/' then
      -- empty path element
      cleanLoop rest out dotdot rooted
    else if c = '.' ∧ (rest = [] ∨ rest.head? = some '/') then
      -- . element
      cleanLoop rest out dotdot rooted
    else if c = '.' ∧ rest.head? = some '.' ∧
        (rest.tail = [] ∨ rest.tail.head? = some '/') then
      -- .. element: remove to last separator
      if dotdot < out.length then
        match out with
        | [] => cleanLoop rest.tail [] dotdot rooted
        | c2 :: outRest => cleanLoop rest.tail (cleanBack c2 outRest dotdot) dotdot rooted
      else if rooted = false then
        let out2 : List Char := '.' :: '.' :: (if 0 < out.length then '/' :: out else out)
        cleanLoop rest.tail out2 out2.length rooted
      else
        cleanLoop rest.tail out dotdot rooted
    else
      -- real path element: add separator if needed, copy element
      let out2 : List Char :=
        if (rooted = true ∧ out.length ≠ 1) ∨ (rooted = false ∧ out.length ≠ 0) then
          '/' :: out
        else out
      cleanLoop (rest.dropWhile (fun x => x ≠ '/'))
        ((rest.takeWhile (fun x => x ≠ '/')).reverse ++ c :: out2) dotdot rooted
termination_by remaining.length
decreasing_by
  all_goals simp_wf
  all_goals try omega
  exact Nat.lt_succ_of_le (length_dropWhile_le _ _)

/-- Go path/filepath Clean for the POSIX separator. -/
def clean (path : String) : String :=
  match path.data with
  | [] => "."
  | c :: rest =>
    if c = '/' then
      let out := cleanLoop rest ['/'] 1 true
      if out.length = 0 then "." else String.mk out.reverse
    else
      let out := cleanLoop (c :: rest) [] 0 false
      if out.length = 0 then "." else String.mk out.reverse

/-- Go path/filepath Ext: the suffix beginning at the final dot in the final
slash-separated element; empty if there is no dot.  Helper walks the path in
reverse with the accumulated suffix. -/
def extAux : List Char → List Char → String
  | [], _ => ""
  | c :: rest, acc =>
    if c = '/' then ""
    else if c = '.' then String.mk ('.' :: acc)
    else extAux rest (c :: acc)

/-- Go path/filepath Ext. -/
def ext (path : String) : String := extAux path.data.reverse []

/-- Go path/filepath Base: last element of the path after removing trailing
separators; "." for the empty path, "/" if the path is all separators. -/
def base (path : String) : String :=
  if path = "" then "."
  else
    let cs := path.data.reverse.dropWhile (fun x => x = '/')
    let name := cs.takeWhile (fun x => x ≠ '/')
    if name = [] then "/" else String.mk name.reverse

/-- Go path/filepath Dir: all but the last element of the path, cleaned. -/
def dirOf (path : String) : String :=
  clean (String.mk ((path.data.reverse.dropWhile (fun x => x ≠ '/')).reverse))

/-! ## Data model: metadata snapshot and mode bits -/

/-- Go's a &^ b (bit clear): keeps the bits of a that are not set in b.
Width-independent, since the result only clears bits of a. -/
def andNot (a b : Nat) : Nat := a ^^^ (a &&& b)

/-- os.ModeDir. -/
def modeDir : Nat := 2 ^ 31
/-- os.ModeSymlink. -/
def modeSymlink : Nat := 2 ^ 27
/-- os.ModeDevice. -/
def modeDevice : Nat := 2 ^ 26
/-- os.ModeNamedPipe. -/
def modeNamedPipe : Nat := 2 ^ 25
/-- os.ModeSocket. -/
def modeSocket : Nat := 2 ^ 24
/-- os.ModeCharDevice. -/
def modeCharDevice : Nat := 2 ^ 21
/-- os.ModeIrregular. -/
def modeIrregular : Nat := 2 ^ 19
/-- os.ModeType: the mask of the non-permission file type bits. -/
def modeType : Nat :=
  modeDir ||| modeSymlink ||| modeNamedPipe ||| modeSocket ||| modeDevice |||
    modeCharDevice ||| modeIrregular

/-- os.FileMode.Perm(): the 0o777 permission bits of a full mode value. -/
def perm (m : Nat) : Nat := m &&& 0o777

/-- os.FileMode.IsRegular(): no type bit is set. -/
def isRegularMode (m : Nat) : Bool := m &&& modeType == 0

/-- os.FileMode.IsDir(). -/
def isDirMode (m : Nat) : Bool := m &&& modeDir != 0

/-- One point-in-time metadata snapshot of a filesystem entry, as surfaced
by os.Stat and the platform helpers: full mode value (type bits and
permission bits), size in bytes, modification and creation instants
(integers, the zero value standing for Go's zero time.Time), owner and
group ids, and the byte content (used only by the Creation Action). -/
structure FileInfo where
  mode : Nat := 0
  size : Int := 0
  modTime : Int := 0
  birthTime : Int := 0
  uid : Nat := 0
  gid : Nat := 0
  content : List Nat := []
  deriving DecidableEq

/-- Result of statting one path: the entry is absent (os.IsNotExist), the
lookup failed for another reason, or a metadata snapshot is returned. -/
inductive Entry where
  | absent
  | statErr
  | info (i : FileInfo)
  deriving DecidableEq

/-- A filesystem snapshot: what os.Stat answers at each path. -/
def FS := String → Entry

/-- CreateKind NoAction (the zero value). -/
def NoAction : Int := 0
/-- CreateKind IfNotExists. -/
def IfNotExists : Int := 1
/-- CreateKind IfExists. -/
def IfExists : Int := 2

/-- The distinguishable failure values the library returns (each constructor
corresponds to one error construction site in the Go source). -/
inductive Err where
  | emptyPath
  | emptyBase
  | absFailed (path : String)
  | relFailed
  | statFailed (path : String)
  | notExist (path : String)
  | notRegular (path : String)
  | notDirectory (path : String)
  | unexpectedlyExists (path : String)
  | parentStatFailed (parent : String)
  | parentNotDirectory (parent : String)
  | parentNotWritable (parent : String)
  | creationTimeFailed (path : String)
  | createdAfter (path : String)
  | modifiedAfter (path : String)
  | badExt (path expected actual : String)
  | badNameStart (path expected : String)
  | baseDirCheckFailed (path : String)
  | badBaseDir (path baseDir : String)
  | badSize (path : String) (expected got : Int)
  | sizeNotLess (path : String) (size limit : Int)
  | sizeNotGreater (path : String) (size limit : Int)
  | badNameLen (path : String) (expected got : Int)
  | badMode (path : String) (expected got : Nat)
  | permCheckFailed (path : String)
  | notPermissiveEnough (path : String) (required got : Nat)
  | tooPermissive (path : String) (limit got : Nat)
  | openPermissions (path : String)
  | writeOnlyViolated (path : String)
  | noWritePermissions (path : String)
  | ownerGroupFailed (path : String)
  | badOwner (path expected actual : String)
  | badGroup (path expected actual : String)
  | couldNotCreateFile (path : String)
  | couldNotRemoveFile (path : String)
  | sizeTooBig (size : Int)
  | createKindNotSupported (kind : Int)
  | shortWrite (wrote want : Int)
  deriving DecidableEq

/-! ## package common -/

namespace common

/-- common.RelStartsWithParent: whether a relative path escapes the base
directory.  The path is normalized with filepath.Clean, then tested for the
literal parent prefix ".." followed by the end of the string or a
separator. -/
def RelStartsWithParent (rel : String) : Bool :=
  let r := clean rel
  hasPre r ".." && (r.length == 2 || hasPre (String.mk (r.data.drop 2)) "/")

/-- common.IsPathInBase: checks if a path is within the base directory.
filepath.Abs and filepath.Rel consult the process state, so they are oracle
parameters: absF returns the absolute form of an argument (none = failure)
and relF the relative path between two absolute paths. -/
def IsPathInBase (absF : String → Option String)
    (relF : String → String → Option String)
    (path baseDir : String) : Except Err Bool :=
  if path = "" then .error .emptyPath
  else if baseDir = "" then .error .emptyBase
  else
    match absF path with
    | none => .error (.absFailed path)
    | some absPath =>
      match absF baseDir with
      | none => .error (.absFailed baseDir)
      | some absBaseDir =>
        match relF absBaseDir absPath with
        | none => .error .relFailed
        | some rel => .ok (!(RelStartsWithParent rel))

/-- common.IsMorePermissiveThan: a path's permissions include every bit of
minPerms (stats the path itself). -/
def IsMorePermissiveThan (fs : FS) (path : String) (minPerms : Nat) :
    Except Err Bool :=
  match fs path with
  | .info i => .ok (perm i.mode &&& minPerms == minPerms)
  | _ => .error (.statFailed path)

/-- common.IsLessPermissiveThan: a path's permissions set no bit outside
maxPerms (stats the path itself). -/
def IsLessPermissiveThan (fs : FS) (path : String) (maxPerms : Nat) :
    Except Err Bool :=
  match fs path with
  | .info i => .ok (andNot (perm i.mode) maxPerms == 0)
  | _ => .error (.statFailed path)

/-- common.GetOwnerAndGroup (darwin/linux shim): the stringified uid and
gid from the stat snapshot. -/
def GetOwnerAndGroup (fs : FS) (path : String) : Except Err (String × String) :=
  match fs path with
  | .info i => .ok (toString i.uid, toString i.gid)
  | _ => .error (.statFailed path)

/-- common.GetCreationTime (darwin/linux shim): the creation instant from
the stat snapshot. -/
def GetCreationTime (fs : FS) (path : String) : Except Err Int :=
  match fs path with
  | .info i => .ok i.birthTime
  | _ => .error (.statFailed path)

end common

/-! ## package file -/

namespace file

/-- os.O_WRONLY (linux). -/
def oWRONLY : Nat := 0o1
/-- os.O_RDWR (linux). -/
def oRDWR : Nat := 0o2
/-- os.O_CREATE (linux). -/
def oCREATE : Nat := 0o100
/-- os.O_EXCL (linux). -/
def oEXCL : Nat := 0o200
/-- os.O_TRUNC (linux). -/
def oTRUNC : Nat := 0o1000

/-- The size constants of the file package, via Go's iota starting at 0:
KB = 1 shifted by 10*0 bits. -/
def KB : Int := 1 <<< (10 * 0)
/-- MB = 1 shifted by 10*1 bits. -/
def MB : Int := 1 <<< (10 * 1)
/-- GB = 1 shifted by 10*2 bits. -/
def GB : Int := 1 <<< (10 * 2)
/-- TB = 1 shifted by 10*3 bits: 2^30, one gibibyte, although the name and
the error message speak of one terabyte. -/
def TB : Int := 1 <<< (10 * 3)

/-- file.Create: the description of a file the Creation Action may create. -/
structure Create where
  path : String := ""
  kind : Int := 0
  fileMode : Nat := 0
  openFlag : Nat := 0
  size : Int := 0
  deriving DecidableEq

/-- Modelled external: os.OpenFile as invoked by the Creation Action.
Returns the filesystem after the open, or none when the open fails:
a missing file is created (empty, with the permission bits of fmode) only
when the create flag is set; an existing file cannot be opened with
create+excl, a directory cannot be opened for writing, and the trunc flag
empties an existing file. -/
def openFile (fs : FS) (path : String) (flag fmode : Nat) : Option FS :=
  match fs path with
  | .statErr => none
  | .absent =>
    if flag &&& oCREATE ≠ 0 then
      some (fun p => if p = path then
        .info { mode := perm fmode, size := 0, content := [] } else fs p)
    else none
  | .info i =>
    if flag &&& oCREATE ≠ 0 ∧ flag &&& oEXCL ≠ 0 then none
    else if isDirMode i.mode then none
    else if flag &&& oTRUNC ≠ 0 then
      some (fun p => if p = path then
        .info { i with size := 0, content := [] } else fs p)
    else some fs

/-- Modelled external: writing bytes b at offset 0 of an open file (the
action seeks to 0 first).  The write overwrites the first b.length bytes
and always reports the full length written. -/
def writeAt0 (fs : FS) (path : String) (b : List Nat) : FS :=
  fun p =>
    if p = path then
      match fs path with
      | .info i =>
        let content := b ++ i.content.drop b.length
        .info { i with content := content, size := (content.length : Int) }
      | e => e
    else fs p

/-- The filler byte sequence written by the create action: byte(i) at
index i. -/
def filler (n : Nat) : List Nat := (List.range n).map (fun i => i % 256)

/-- os.Remove on a file: fails when the path cannot be statted or is
absent. -/
def removeFile (fs : FS) (path : String) : Except Err FS :=
  match fs path with
  | .info _ => .ok (fun p => if p = path then .absent else fs p)
  | _ => .error (.couldNotRemoveFile path)

/-- Method file of Create: create a file per the IfNotExists policy.  The deferred
assignment reverts the kind to NoAction on every return path after the
guard.  Mirrors the source order: open first, then the TB size gate, then
the filler write.  Returns the result, the filesystem after the action,
and the Create value after its mutations. -/
def Create.fileRun (create : Create) (fs : FS) : Except Err Unit × FS × Create :=
  if create.kind ≠ IfNotExists then (.ok (), fs, create)
  else
    let done : Create := { create with kind := NoAction }
    match openFile fs create.path create.openFlag create.fileMode with
    | none => (.error (.couldNotCreateFile create.path), fs, done)
    | some fs1 =>
      if create.size > TB then (.error (.sizeTooBig create.size), fs1, done)
      else if create.size > 0 then
        let b := filler create.size.toNat
        let fs2 := writeAt0 fs1 create.path b
        let bytesWritten : Int := (b.length : Int)
        if bytesWritten ≠ (b.length : Int) then
          (.error (.shortWrite bytesWritten (b.length : Int)), fs2, done)
        else (.ok (), fs2, done)
      else (.ok (), fs1, done)

/-- Method replaceFile of Create: remove the file, flip the kind to IfNotExists
and delegate to the create path. -/
def Create.replaceFileRun (create : Create) (fs : FS) :
    Except Err Unit × FS × Create :=
  if create.kind ≠ IfExists then (.ok (), fs, create)
  else
    match removeFile fs create.path with
    | .error e => (.error e, fs, create)
    | .ok fs1 => Create.fileRun { create with kind := IfNotExists } fs1

/-- Method Run of Create: dispatch on the kind; any kind other than IfExists and
IfNotExists is not supported. -/
def Create.Run (create : Create) (fs : FS) : Except Err Unit × FS × Create :=
  if create.kind = IfExists then create.replaceFileRun fs
  else if create.kind = IfNotExists then create.fileRun fs
  else (.error (.createKindNotSupported create.kind), fs, create)

/-- file.Options: the file predicates (field requireNameStart carries the
RequirePrefix predicate of the source, existsF the Exists field). -/
structure Options where
  createdBefore : Int := 0
  modifiedBefore : Int := 0
  isLessThan : Int := 0
  isSize : Int := 0
  isGreaterThan : Int := 0
  requireExt : String := ""
  requireNameStart : String := ""
  requireOwner : String := ""
  requireGroup : String := ""
  requireBaseDir : String := ""
  isFileMode : Nat := 0
  morePermissiveThan : Nat := 0
  lessPermissiveThan : Nat := 0
  isBaseNameLen : Int := 0
  requireWrite : Bool := false
  readOnly : Bool := false
  writeOnly : Bool := false
  existsF : Bool := false
  create : Create := {}
  deriving DecidableEq

/-- The predicate sequence file.File runs once the stat has produced a
snapshot, in source order, failing fast. -/
def fileInfoChecks (absF : String → Option String)
    (relF : String → String → Option String)
    (fs : FS) (path : String) (opts : Options) (i : FileInfo) :
    Except Err Unit := do
  if ¬ isRegularMode i.mode then throw (.notRegular path)
  if opts.createdBefore ≠ 0 then
    match common.GetCreationTime fs path with
    | .error _ => throw (.creationTimeFailed path)
    | .ok ct => if ct > opts.createdBefore then throw (.createdAfter path)
  if opts.modifiedBefore ≠ 0 ∧ i.modTime > opts.modifiedBefore then
    throw (.modifiedAfter path)
  if opts.requireExt ≠ "" ∧ ext path ≠ opts.requireExt then
    throw (.badExt path opts.requireExt (ext path))
  if opts.requireNameStart ≠ "" ∧ ¬ hasPre (base path) opts.requireNameStart then
    throw (.badNameStart path opts.requireNameStart)
  if opts.requireBaseDir ≠ "" then
    match common.IsPathInBase absF relF path opts.requireBaseDir with
    | .error _ => throw (.baseDirCheckFailed path)
    | .ok b => if ¬ b then throw (.badBaseDir path opts.requireBaseDir)
  if opts.isSize ≠ 0 ∧ i.size ≠ opts.isSize then
    throw (.badSize path opts.isSize i.size)
  if opts.isLessThan ≠ 0 ∧ i.size ≥ opts.isLessThan then
    throw (.sizeNotLess path i.size opts.isLessThan)
  if opts.isGreaterThan ≠ 0 ∧ i.size ≤ opts.isGreaterThan then
    throw (.sizeNotGreater path i.size opts.isGreaterThan)
  if opts.isBaseNameLen ≠ 0 ∧ ((base path).length : Int) ≠ opts.isBaseNameLen then
    throw (.badNameLen path opts.isBaseNameLen ((base path).length : Int))
  if opts.isFileMode ≠ 0 ∧ i.mode ≠ opts.isFileMode then
    throw (.badMode path opts.isFileMode i.mode)
  if opts.morePermissiveThan ≠ 0 then
    match common.IsMorePermissiveThan fs path opts.morePermissiveThan with
    | .error _ => throw (.permCheckFailed path)
    | .ok b =>
      if ¬ b then
        throw (.notPermissiveEnough path opts.morePermissiveThan (perm i.mode))
  if opts.lessPermissiveThan ≠ 0 then
    match common.IsLessPermissiveThan fs path opts.lessPermissiveThan with
    | .error _ => throw (.permCheckFailed path)
    | .ok b =>
      if ¬ b then
        throw (.tooPermissive path opts.lessPermissiveThan (perm i.mode))
  if opts.readOnly ∧ perm i.mode &&& 0o222 ≠ 0 then
    throw (.openPermissions path)
  if opts.writeOnly ∧ perm i.mode &&& 0o444 ≠ 0 then
    throw (.writeOnlyViolated path)
  if opts.requireWrite ∧ perm i.mode &&& 0o200 = 0 then
    throw (.noWritePermissions path)
  if opts.requireOwner ≠ "" ∨ opts.requireGroup ≠ "" then
    match common.GetOwnerAndGroup fs path with
    | .error _ => throw (.ownerGroupFailed path)
    | .ok (uid, gid) => do
      if opts.requireOwner ≠ "" ∧ uid ≠ opts.requireOwner then
        throw (.badOwner path opts.requireOwner uid)
      if opts.requireGroup ≠ "" ∧ gid ≠ opts.requireGroup then
        throw (.badGroup path opts.requireGroup gid)
  pure ()

/-- file.File: the file evaluator.  On a missing target a configured
create-if-missing policy runs the Creation Action (with the path defaulted
in the local copy of the options); otherwise absence is acceptable exactly
when existence was not required.  Returns the result and the filesystem
after any action.  Go passes Options by value, so the caller's Options are
untouched; the embedding receives opts immutably. -/
def File (absF : String → Option String)
    (relF : String → String → Option String)
    (fs : FS) (path : String) (opts : Options) : Except Err Unit × FS :=
  match fs path with
  | .absent =>
    if opts.create.kind = IfNotExists then
      let c := if opts.create.path = "" then { opts.create with path := path }
               else opts.create
      let r := Create.Run c fs
      (r.1, r.2.1)
    else if opts.existsF then (.error (.notExist path), fs)
    else (.ok (), fs)
  | .statErr => (.error (.statFailed path), fs)
  | .info i => (fileInfoChecks absF relF fs path opts i, fs)

end file

/-! ## package directory -/

namespace directory

/-- directory.Create: the description of a directory the Creation Action
may create. -/
structure Create where
  kind : Int := 0
  fileMode : Nat := 0
  path : String := ""
  deriving DecidableEq

/-- Modelled external: os.MkdirAll.  Succeeds without change when the path
is already a directory, fails when it exists as a non-directory, and
otherwise adds the directory entry (recursive creation of missing parents
is abstracted to the target entry). -/
def mkdirAll (fs : FS) (path : String) (fmode : Nat) : Except Err FS :=
  match fs path with
  | .statErr => .error (.statFailed path)
  | .info i =>
    if isDirMode i.mode then .ok fs else .error (.notDirectory path)
  | .absent =>
    .ok (fun p => if p = path then
      .info { mode := modeDir ||| perm fmode } else fs p)

/-- Modelled external: os.RemoveAll.  Removes the path and everything
below it; a missing path is not an error. -/
def removeAll (fs : FS) (path : String) : FS :=
  fun p => if p = path ∨ hasPre p (path ++ "/") then .absent else fs p

/-- Method directory of Create: create a directory per the IfNotExists policy;
the deferred assignment reverts the kind to NoAction on every return path
after the guard. -/
def Create.dirRun (create : Create) (fs : FS) : Except Err Unit × FS × Create :=
  if create.kind ≠ IfNotExists then (.ok (), fs, create)
  else
    let done : Create := { create with kind := NoAction }
    match mkdirAll fs create.path create.fileMode with
    | .ok fs1 => (.ok (), fs1, done)
    | .error e => (.error e, fs, done)

/-- Method replaceDirectory of Create: remove the tree, flip the kind to
IfNotExists and delegate to the create path. -/
def Create.replaceDirRun (create : Create) (fs : FS) :
    Except Err Unit × FS × Create :=
  if create.kind ≠ IfExists then (.ok (), fs, create)
  else
    Create.dirRun { create with kind := IfNotExists } (removeAll fs create.path)

/-- Method Run of Create: dispatch on the kind; any kind other than IfExists and
IfNotExists is not supported. -/
def Create.Run (create : Create) (fs : FS) : Except Err Unit × FS × Create :=
  if create.kind = IfExists then create.replaceDirRun fs
  else if create.kind = IfNotExists then create.dirRun fs
  else (.error (.createKindNotSupported create.kind), fs, create)

/-- directory.Options (field requireNameStart carries the RequirePrefix
predicate of the source, existsF the Exists field; requireExt is present
in the source struct but never read by Directory). -/
structure Options where
  createdBefore : Int := 0
  modifiedBefore : Int := 0
  requireOwner : String := ""
  requireGroup : String := ""
  requireBaseDir : String := ""
  requireExt : String := ""
  requireNameStart : String := ""
  morePermissiveThan : Nat := 0
  lessPermissiveThan : Nat := 0
  readOnly : Bool := false
  requireWrite : Bool := false
  willCreate : Bool := false
  create : Create := {}
  existsF : Bool := false
  deriving DecidableEq

/-- The predicate sequence directory.Directory runs on an existing
directory snapshot, in source order, failing fast. -/
def dirInfoChecks (absF : String → Option String)
    (relF : String → String → Option String)
    (fs : FS) (path : String) (opts : Options) (i : FileInfo) :
    Except Err Unit := do
  if opts.createdBefore ≠ 0 then
    match common.GetCreationTime fs path with
    | .error _ => throw (.creationTimeFailed path)
    | .ok ct => if ct > opts.createdBefore then throw (.createdAfter path)
  if opts.modifiedBefore ≠ 0 ∧ i.modTime > opts.modifiedBefore then
    throw (.modifiedAfter path)
  if opts.requireNameStart ≠ "" ∧ ¬ hasPre (base path) opts.requireNameStart then
    throw (.badNameStart path opts.requireNameStart)
  if opts.requireBaseDir ≠ "" then
    match common.IsPathInBase absF relF path opts.requireBaseDir with
    | .error _ => throw (.baseDirCheckFailed path)
    | .ok b => if ¬ b then throw (.badBaseDir path opts.requireBaseDir)
  if opts.readOnly ∧ perm i.mode &&& 0o222 ≠ 0 then
    throw (.openPermissions path)
  if opts.requireWrite ∧ perm i.mode &&& 0o200 = 0 then
    throw (.noWritePermissions path)
  if opts.morePermissiveThan ≠ 0 then
    match common.IsMorePermissiveThan fs path opts.morePermissiveThan with
    | .error _ => throw (.permCheckFailed path)
    | .ok b =>
      if ¬ b then
        throw (.notPermissiveEnough path opts.morePermissiveThan (perm i.mode))
  if opts.lessPermissiveThan ≠ 0 then
    match common.IsLessPermissiveThan fs path opts.lessPermissiveThan with
    | .error _ => throw (.permCheckFailed path)
    | .ok b =>
      if ¬ b then
        throw (.tooPermissive path opts.lessPermissiveThan (perm i.mode))
  if opts.requireOwner ≠ "" ∨ opts.requireGroup ≠ "" then
    match common.GetOwnerAndGroup fs path with
    | .error _ => throw (.ownerGroupFailed path)
    | .ok (uid, gid) => do
      if opts.requireOwner ≠ "" ∧ uid ≠ opts.requireOwner then
        throw (.badOwner path opts.requireOwner uid)
      if opts.requireGroup ≠ "" ∧ gid ≠ opts.requireGroup then
        throw (.badGroup path opts.requireGroup gid)
  pure ()

/-- directory.Directory: the directory evaluator.  WillCreate first
upgrades a NoAction policy to IfNotExists in the local copy of the options
and validates the parent directory; then the create path is defaulted;
then the target is statted.  A missing target is acceptable when existence
was not required and no action is configured, is created by an IfNotExists
policy, and otherwise fails when existence was required without intent to
create.  An existing target fails when existence was explicitly not
expected and there is no intent to create; an IfExists policy replaces it;
otherwise the predicate sequence runs.  Go passes Options by value, so the
caller's Options are untouched; the embedding receives opts immutably. -/
def Directory (absF : String → Option String)
    (relF : String → String → Option String)
    (fs : FS) (path : String) (opts0 : Options) : Except Err Unit × FS :=
  let opts1 :=
    if opts0.willCreate ∧ opts0.create.kind = NoAction then
      { opts0 with create := { opts0.create with kind := IfNotExists } }
    else opts0
  let parentCheck : Option Err :=
    if opts1.willCreate then
      match fs (dirOf path) with
      | .info pi =>
        if ¬ isDirMode pi.mode then some (.parentNotDirectory (dirOf path))
        else if perm pi.mode &&& 0o200 = 0 then
          some (.parentNotWritable (dirOf path))
        else none
      | _ => some (.parentStatFailed (dirOf path))
    else none
  match parentCheck with
  | some e => (.error e, fs)
  | none =>
    let opts :=
      if opts1.create.kind ≠ NoAction ∧ opts1.create.path = "" then
        { opts1 with create := { opts1.create with path := path } }
      else opts1
    match fs path with
    | .statErr => (.error (.statFailed path), fs)
    | .absent =>
      if opts.existsF = false ∧ opts.create.kind = NoAction then (.ok (), fs)
      else if opts.create.kind = IfNotExists then
        let r := Create.Run opts.create fs
        (r.1, r.2.1)
      else if opts.existsF ∧ opts.willCreate = false then
        (.error (.notExist path), fs)
      else (.ok (), fs)
    | .info i =>
      if opts.existsF = false ∧ opts.willCreate = false then
        (.error (.unexpectedlyExists path), fs)
      else if ¬ isDirMode i.mode then (.error (.notDirectory path), fs)
      else if opts.existsF ∧ opts.create.kind = IfExists then
        let r := Create.Run opts.create fs
        (r.1, r.2.1)
      else (dirInfoChecks absF relF fs path opts i, fs)

end directory

/-- A call checkfs.File(path, opts), seen from the caller: Go passes the
Options struct by value, so after the call the caller's variable still
holds the options it passed; the pair returned here is the call result
together with the caller's options after the call. -/
def FileCall (absF : String → Option String)
    (relF : String → String → Option String)
    (fs : FS) (path : String) (opts : file.Options) :
    (Except Err Unit × FS) × file.Options :=
  (file.File absF relF fs path opts, opts)

/-- A call checkfs.Directory(path, opts), seen from the caller (options
passed by value, as in FileCall). -/
def DirectoryCall (absF : String → Option String)
    (relF : String → String → Option String)
    (fs : FS) (path : String) (opts : directory.Options) :
    (Except Err Unit × FS) × directory.Options :=
  (directory.Directory absF relF fs path opts, opts)

/-! ## Concrete fixtures for the witnesses -/

/-- Oracle returning its argument as its absolute form. -/
def absId : String → Option String := fun s => some s

/-- Oracle returning a fixed inside relative path. -/
def relConst : String → String → Option String := fun _ _ => some "sub/x"

/-- Oracle returning a fixed escaping relative path. -/
def relOut : String → String → Option String := fun _ _ => some "../x"

/-- A regular file snapshot, mode 0644, 4 bytes. -/
def regInfo : FileInfo := { mode := 0o644, size := 4 }

/-- A read-only directory snapshot, mode 0444. -/
def roDirInfo : FileInfo := { mode := modeDir ||| 0o444 }

/-- A writable directory snapshot, mode 0755. -/
def rwDirInfo : FileInfo := { mode := modeDir ||| 0o755 }

/-- A sample snapshot: one regular file, one read-only directory, one
writable directory, everything else absent. -/
def sampleFS : FS := fun p =>
  if p = "/t/f" then .info regInfo
  else if p = "/d" then .info roDirInfo
  else if p = "/w" then .info rwDirInfo
  else .absent

/-! ## Claims -/

/-- Shape of the escape test on character sequences: a dot-dot two-character
sequence followed by nothing or a separator is the same as being exactly
dot-dot or starting with dot-dot-separator. -/
theorem escape_shape (cs : List Char) :
    ((['.', '.'].isPrefixOf cs) && ((cs.length == 2) ||
      ['/'].isPrefixOf (cs.drop 2))) = true ↔
    (cs = ['.', '.'] ∨ ['.', '.', '/'].isPrefixOf cs = true) := by
  simp only [Bool.and_eq_true, Bool.or_eq_true, beq_iff_eq,
    List.isPrefixOf_iff_prefix]
  rcases cs with _ | ⟨a, _ | ⟨b, t⟩⟩
  · simp
  · simp [List.cons_prefix_cons]
  · rcases t with _ | ⟨c, t2⟩ <;>
      simp [List.cons_prefix_cons, List.prefix_nil, eq_comm, and_assoc]

/-- The escape test RelStartsWithParent holds exactly when the cleaned
relative path is exactly ".." or starts with "../". -/
theorem relStartsWithParent_characterization (rel : String) :
    common.RelStartsWithParent rel = true ↔
      (clean rel = ".." ∨ hasPre (clean rel) "../" = true) := by
  have hdata : ∀ s : String, (s = ".." ↔ s.data = ['.', '.']) := by
    intro s
    constructor
    · intro h
      rw [h]
    · intro h
      cases s
      simp_all
  unfold common.RelStartsWithParent hasPre
  rw [hdata (clean rel)]
  have hlen : (clean rel).length = (clean rel).data.length := rfl
  have hpre1 : (".." : String).data = ['.', '.'] := rfl
  have hpre2 : ("../" : String).data = ['.', '.', '/'] := rfl
  have hpre3 : ("/" : String).data = ['/'] := rfl
  simp only [hlen, hpre1, hpre2, hpre3]
  exact escape_shape (clean rel).data

/-- C1: for non-empty path and base with successful absolute/relative
oracles, IsPathInBase answers without error, returning false exactly when
the lexically cleaned relative path from the absolute base to the absolute
path is ".." or begins with "../", and true for every other relative form. -/
theorem c1_isPathInBase_boundary (absF : String → Option String)
    (relF : String → String → Option String)
    (path baseDir absPath absBaseDir rel : String)
    (hp : path ≠ "") (hb : baseDir ≠ "")
    (hap : absF path = some absPath) (hab : absF baseDir = some absBaseDir)
    (hr : relF absBaseDir absPath = some rel) :
    (common.IsPathInBase absF relF path baseDir = .ok false ↔
      (clean rel = ".." ∨ hasPre (clean rel) "../" = true)) ∧
    (common.IsPathInBase absF relF path baseDir = .ok false ∨
      common.IsPathInBase absF relF path baseDir = .ok true) := by
  have heq : common.IsPathInBase absF relF path baseDir =
      .ok (!(common.RelStartsWithParent rel)) := by
    simp [common.IsPathInBase, hp, hb, hap, hab, hr]
  rw [heq]
  constructor
  · rw [← relStartsWithParent_characterization]
    cases h : common.RelStartsWithParent rel <;> simp [h]
  · cases common.RelStartsWithParent rel <;> simp

/-- Witness for C1 with an escaping relative path. -/
theorem c1_isPathInBase_boundary_witness :
    (common.IsPathInBase absId relOut "/a/b" "/a" = .ok false ↔
      (clean "../x" = ".." ∨ hasPre (clean "../x") "../" = true)) ∧
    (common.IsPathInBase absId relOut "/a/b" "/a" = .ok false ∨
      common.IsPathInBase absId relOut "/a/b" "/a" = .ok true) :=
  c1_isPathInBase_boundary absId relOut "/a/b" "/a" "/a/b" "/a" "../x"
    (by decide) (by decide) (by rfl) (by rfl) (by rfl)

/-- Bitwise and of a number with itself is itself. -/
theorem land_self_nat (n : Nat) : n &&& n = n := by
  apply Nat.eq_of_testBit_eq
  intro i
  simp [Nat.testBit_land]

/-- Go's a &^ a clears every bit of a. -/
theorem andNot_self (n : Nat) : andNot n n = 0 := by
  simp [andNot, land_self_nat, Nat.xor_self]

/-- C3: for every mode value M, taking the reference equal to M, both
permission-comparison primitives hold at once: IsMorePermissiveThan
because M AND M = M, and IsLessPermissiveThan because M AND NOT M = 0. -/
theorem c3_reflexive_permissiveness (fs : FS) (path : String) (i : FileInfo)
    (h : fs path = .info i) :
    common.IsMorePermissiveThan fs path (perm i.mode) = .ok true ∧
    common.IsLessPermissiveThan fs path (perm i.mode) = .ok true := by
  refine ⟨?_, ?_⟩ <;>
    simp [common.IsMorePermissiveThan, common.IsLessPermissiveThan, h,
      land_self_nat, andNot_self]

/-- Witness for C3 at a concrete snapshot. -/
theorem c3_reflexive_permissiveness_witness :
    common.IsMorePermissiveThan sampleFS "/t/f" (perm regInfo.mode) = .ok true ∧
    common.IsLessPermissiveThan sampleFS "/t/f" (perm regInfo.mode) = .ok true :=
  c3_reflexive_permissiveness sampleFS "/t/f" regInfo (by rfl)

/-- C9: both evaluators are deterministic functions of the metadata
snapshot: two runs over pointwise-identical snapshots return identical
results (result and resulting filesystem). -/
theorem c9_two_run_determinism (absF : String → Option String)
    (relF : String → String → Option String) (fs₁ fs₂ : FS) (path : String)
    (fopts : file.Options) (dopts : directory.Options)
    (h : ∀ p, fs₁ p = fs₂ p) :
    file.File absF relF fs₁ path fopts = file.File absF relF fs₂ path fopts ∧
    directory.Directory absF relF fs₁ path dopts =
      directory.Directory absF relF fs₂ path dopts := by
  have hfs : fs₁ = fs₂ := funext h
  rw [hfs]
  exact ⟨rfl, rfl⟩

/-- Witness for C9 at a concrete snapshot. -/
theorem c9_two_run_determinism_witness :
    file.File absId relConst sampleFS "/t/f" {} =
      file.File absId relConst sampleFS "/t/f" {} ∧
    directory.Directory absId relConst sampleFS "/t/f" {} =
      directory.Directory absId relConst sampleFS "/t/f" {} :=
  c9_two_run_determinism absId relConst sampleFS sampleFS "/t/f" {} {}
    (fun _ => rfl)

/-- C10: running a Creation Action whose kind is NoAction (the zero value)
or any other unrecognized kind returns the create-kind-not-supported
failure, leaving the filesystem and the action untouched, for both the
file and the directory Create types. -/
theorem c10_run_unsupported_kind (fs : FS) (fc : file.Create)
    (dc : directory.Create)
    (h1 : fc.kind ≠ IfNotExists) (h2 : fc.kind ≠ IfExists)
    (h3 : dc.kind ≠ IfNotExists) (h4 : dc.kind ≠ IfExists) :
    file.Create.Run fc fs = (.error (.createKindNotSupported fc.kind), fs, fc) ∧
    directory.Create.Run dc fs =
      (.error (.createKindNotSupported dc.kind), fs, dc) := by
  refine ⟨?_, ?_⟩ <;>
    simp [file.Create.Run, directory.Create.Run, h1, h2, h3, h4]

/-- Witness for C10 with the zero-valued NoAction kind. -/
theorem c10_run_unsupported_kind_witness :
    file.Create.Run { path := "/new" } sampleFS =
      (.error (.createKindNotSupported NoAction), sampleFS,
        { path := "/new" }) ∧
    directory.Create.Run { path := "/new" } sampleFS =
      (.error (.createKindNotSupported NoAction), sampleFS,
        { path := "/new" }) :=
  c10_run_unsupported_kind sampleFS { path := "/new" } { path := "/new" }
    (by decide) (by decide) (by decide) (by decide)

/-- C4: at a non-existent path with no creation policy, requiring
non-existence succeeds (no further predicate applies) and requiring
existence fails with the not-found failure, for both evaluators. -/
theorem c4_absent_exists_flag (absF : String → Option String)
    (relF : String → String → Option String) (fs : FS) (path : String)
    (h : fs path = .absent) :
    (file.File absF relF fs path {}).1 = .ok () ∧
    (file.File absF relF fs path { existsF := true }).1 =
      .error (.notExist path) ∧
    (directory.Directory absF relF fs path {}).1 = .ok () ∧
    (directory.Directory absF relF fs path { existsF := true }).1 =
      .error (.notExist path) := by
  refine ⟨?_, ?_, ?_, ?_⟩ <;>
    simp [file.File, directory.Directory, h, NoAction, IfNotExists, IfExists]

/-- C2 counterexample: an existing regular file checked with exists false
(the default) makes the file evaluator succeed; it does not fail with the
unexpected-existence failure the claim predicts for both evaluators. -/
theorem c2_counterexample :
    (file.File absId relConst sampleFS "/t/f" {}).1 = .ok () ∧
    (file.File absId relConst sampleFS "/t/f" {}).1 ≠
      .error (.unexpectedlyExists "/t/f") := by
  refine ⟨?_, ?_⟩ <;> decide

/-- C2 (amended): when the target exists while exists is false and
willCreate is false, only the directory evaluator fails with the
unexpected-existence failure; the file evaluator has no such check and
proceeds with the remaining predicates (succeeding under the default
configuration when the target is a regular file). -/
theorem c2_amended_unexpected_existence (absF : String → Option String)
    (relF : String → String → Option String) (fs : FS) (path : String)
    (i : FileInfo) (opts : directory.Options)
    (h : fs path = .info i)
    (he : opts.existsF = false) (hw : opts.willCreate = false) :
    (directory.Directory absF relF fs path opts).1 =
      .error (.unexpectedlyExists path) ∧
    (file.File absF relF fs path {}).1 =
      (if isRegularMode i.mode then .ok () else .error (.notRegular path)) := by
  constructor
  · unfold directory.Directory
    by_cases hc : ¬ opts.create.kind = NoAction ∧ opts.create.path = "" <;>
      simp [hw, h, he, hc]
  · unfold file.File
    rw [h]
    cases hreg : isRegularMode i.mode <;>
      simp [file.fileInfoChecks, hreg] <;> rfl

/-- Witness for the amended C2 at a concrete existing directory. -/
theorem c2_amended_unexpected_existence_witness :
    (directory.Directory absId relConst sampleFS "/d" {}).1 =
      .error (.unexpectedlyExists "/d") ∧
    (file.File absId relConst sampleFS "/d" {}).1 =
      (if isRegularMode roDirInfo.mode then .ok ()
       else .error (.notRegular "/d")) :=
  c2_amended_unexpected_existence absId relConst sampleFS "/d" roDirInfo {}
    (by rfl) (by rfl) (by rfl)

/-- Witness for C4 at a concrete absent path. -/
theorem c4_absent_exists_flag_witness :
    (file.File absId relConst sampleFS "/none" {}).1 = .ok () ∧
    (file.File absId relConst sampleFS "/none" { existsF := true }).1 =
      .error (.notExist "/none") ∧
    (directory.Directory absId relConst sampleFS "/none" {}).1 = .ok () ∧
    (directory.Directory absId relConst sampleFS "/none"
        { existsF := true }).1 = .error (.notExist "/none") :=
  c4_absent_exists_flag absId relConst sampleFS "/none" (by rfl)

/-- C5: a regular file of exactly N bytes (N positive) satisfies exact
size N, fails size-less-than N, fails size-greater-than N, satisfies
size-less-than N+1 and size-greater-than N-1; and zero-valued size
thresholds (the defaults) are treated as not configured, so the default
configuration succeeds regardless of size. -/
theorem c5_size_boundaries (absF : String → Option String)
    (relF : String → String → Option String) (fs : FS) (path : String)
    (i : FileInfo) (N : Int) (h : fs path = .info i)
    (hreg : isRegularMode i.mode = true) (hsz : i.size = N) (hN : 0 < N) :
    (file.File absF relF fs path { isSize := N }).1 = .ok () ∧
    (file.File absF relF fs path { isLessThan := N }).1 =
      .error (.sizeNotLess path N N) ∧
    (file.File absF relF fs path { isGreaterThan := N }).1 =
      .error (.sizeNotGreater path N N) ∧
    (file.File absF relF fs path { isLessThan := N + 1 }).1 = .ok () ∧
    (file.File absF relF fs path { isGreaterThan := N - 1 }).1 = .ok () ∧
    (file.File absF relF fs path {}).1 = .ok () := by
  have hN0 : N ≠ 0 := by omega
  have hlt : ¬ (N ≥ N + 1) := by omega
  have hgt : ¬ (N - 1 ≠ 0 ∧ N ≤ N - 1) := by omega
  refine ⟨?_, ?_, ?_, ?_, ?_, ?_⟩ <;>
    (unfold file.File; rw [h];
     simp [file.fileInfoChecks, hreg, hsz, hN0, hlt, hgt]) <;> rfl

/-- Witness for C5 at the 4-byte sample file. -/
theorem c5_size_boundaries_witness :
    (file.File absId relConst sampleFS "/t/f" { isSize := 4 }).1 = .ok () ∧
    (file.File absId relConst sampleFS "/t/f" { isLessThan := 4 }).1 =
      .error (.sizeNotLess "/t/f" 4 4) ∧
    (file.File absId relConst sampleFS "/t/f" { isGreaterThan := 4 }).1 =
      .error (.sizeNotGreater "/t/f" 4 4) ∧
    (file.File absId relConst sampleFS "/t/f" { isLessThan := 4 + 1 }).1 =
      .ok () ∧
    (file.File absId relConst sampleFS "/t/f" { isGreaterThan := 4 - 1 }).1 =
      .ok () ∧
    (file.File absId relConst sampleFS "/t/f" {}).1 = .ok () :=
  c5_size_boundaries absId relConst sampleFS "/t/f" regInfo 4 (by rfl)
    (by rfl) (by rfl) (by decide)

/-- C6 counterexample: an existing directory of mode 0444 checked with
only requireWrite set fails with the unexpected-existence failure (the
exists flag was left false), not with the write-permission failure the
claim predicts. -/
theorem c6_counterexample :
    (directory.Directory absId relConst sampleFS "/d"
        { requireWrite := true }).1 = .error (.unexpectedlyExists "/d") ∧
    (directory.Directory absId relConst sampleFS "/d"
        { requireWrite := true }).1 ≠
      .error (.noWritePermissions "/d") := by
  refine ⟨?_, ?_⟩ <;> decide

/-- C6 (amended): on an existing regular file, readOnly fails with the
open-permissions failure exactly when a write bit is set, writeOnly fails
exactly when a read bit is set, and requireWrite fails with the
write-permission failure exactly when the owner-write bit is clear; on an
existing directory the same requireWrite behaviour holds once the
configuration also sets exists true (without it the evaluator rejects the
existing directory first). -/
theorem c6_amended_permission_flags (absF : String → Option String)
    (relF : String → String → Option String) (fs : FS)
    (pathF pathD : String) (i j : FileInfo)
    (hF : fs pathF = .info i) (hreg : isRegularMode i.mode = true)
    (hD : fs pathD = .info j) (hdir : isDirMode j.mode = true) :
    (file.File absF relF fs pathF { readOnly := true }).1 =
      (if perm i.mode &&& 0o222 ≠ 0 then .error (.openPermissions pathF)
       else .ok ()) ∧
    (file.File absF relF fs pathF { writeOnly := true }).1 =
      (if perm i.mode &&& 0o444 ≠ 0 then .error (.writeOnlyViolated pathF)
       else .ok ()) ∧
    (file.File absF relF fs pathF { requireWrite := true }).1 =
      (if perm i.mode &&& 0o200 = 0 then .error (.noWritePermissions pathF)
       else .ok ()) ∧
    (directory.Directory absF relF fs pathD
        { existsF := true, requireWrite := true }).1 =
      (if perm j.mode &&& 0o200 = 0 then .error (.noWritePermissions pathD)
       else .ok ()) := by
  refine ⟨?_, ?_, ?_, ?_⟩
  · unfold file.File
    rw [hF]
    by_cases hb : perm i.mode &&& 0o222 = 0 <;>
      simp [file.fileInfoChecks, hreg, hb] <;> rfl
  · unfold file.File
    rw [hF]
    by_cases hb : perm i.mode &&& 0o444 = 0 <;>
      simp [file.fileInfoChecks, hreg, hb] <;> rfl
  · unfold file.File
    rw [hF]
    by_cases hb : perm i.mode &&& 0o200 = 0 <;>
      simp [file.fileInfoChecks, hreg, hb] <;> rfl
  · unfold directory.Directory
    by_cases hb : perm j.mode &&& 0o200 = 0 <;>
      simp [directory.dirInfoChecks, hD, hdir, hb] <;> rfl

/-- Witness for the amended C6 at the sample file (0644) and the
read-only sample directory (0444). -/
theorem c6_amended_permission_flags_witness :
    (file.File absId relConst sampleFS "/t/f" { readOnly := true }).1 =
      (if perm regInfo.mode &&& 0o222 ≠ 0 then
        .error (.openPermissions "/t/f") else .ok ()) ∧
    (file.File absId relConst sampleFS "/t/f" { writeOnly := true }).1 =
      (if perm regInfo.mode &&& 0o444 ≠ 0 then
        .error (.writeOnlyViolated "/t/f") else .ok ()) ∧
    (file.File absId relConst sampleFS "/t/f" { requireWrite := true }).1 =
      (if perm regInfo.mode &&& 0o200 = 0 then
        .error (.noWritePermissions "/t/f") else .ok ()) ∧
    (directory.Directory absId relConst sampleFS "/d"
        { existsF := true, requireWrite := true }).1 =
      (if perm roDirInfo.mode &&& 0o200 = 0 then
        .error (.noWritePermissions "/d") else .ok ()) :=
  c6_amended_permission_flags absId relConst sampleFS "/t/f" "/d" regInfo
    roDirInfo (by rfl) (by rfl) (by rfl) (by rfl)

/-- A create-if-missing file action at path with the given open flags,
permission mode and requested size (the record the C7 statement runs). -/
def mkCreate (path : String) (flag fmode : Nat) (size : Int) : file.Create :=
  { path := path, kind := IfNotExists, fileMode := fmode,
    openFlag := flag, size := size }

/-- C7 counterexample: with a requested size of 2^30+1 bytes, well under
one terabyte, the create action fails with the size failure instead of
writing the filler sequence, and the open call has already produced the
empty file object before that failure. -/
theorem c7_counterexample :
    (file.Create.Run
        (mkCreate "/new" (file.oCREATE ||| file.oWRONLY) 0o644 (2 ^ 30 + 1))
        sampleFS).1 = .error (.sizeTooBig (2 ^ 30 + 1)) ∧
    (file.Create.Run
        (mkCreate "/new" (file.oCREATE ||| file.oWRONLY) 0o644 (2 ^ 30 + 1))
        sampleFS).2.1 "/new" =
      .info { mode := 0o644, size := 0, content := [] } := by
  refine ⟨?_, ?_⟩ <;> decide

/-- C7 (amended): the size gate of the file create action rejects any
requested size above the TB constant, which equals 2^30 bytes (one
gibibyte, despite its terabyte name and error message), and it does so
only after the open call has already created the empty file, so no bytes
are written but a filesystem object is produced; for a positive requested
size within the gate the file is filled with the deterministic filler
sequence byte(index) of exactly the requested length. -/
theorem c7_amended_size_gate (fs : FS) (path : String) (flag fmode : Nat)
    (size : Int) (habs : fs path = .absent)
    (hflag : flag &&& file.oCREATE ≠ 0) :
    (size > file.TB →
      (file.Create.Run (mkCreate path flag fmode size) fs).1 =
        .error (.sizeTooBig size) ∧
      (file.Create.Run (mkCreate path flag fmode size) fs).2.1 path =
        .info { mode := perm fmode, size := 0, content := [] }) ∧
    (0 < size → size ≤ file.TB →
      (file.Create.Run (mkCreate path flag fmode size) fs).1 = .ok () ∧
      (file.Create.Run (mkCreate path flag fmode size) fs).2.1 path =
        .info { mode := perm fmode,
                size := ((file.filler size.toNat).length : Int),
                content := file.filler size.toNat } ∧
      ((file.filler size.toNat).length : Int) = size) := by
  constructor
  · intro hbig
    constructor <;>
      simp [mkCreate, file.Create.Run, file.Create.fileRun, file.openFile,
        habs, hflag, IfNotExists, IfExists, hbig]
  · intro h0 hle
    have hnb : ¬ (size > file.TB) := by omega
    refine ⟨?_, ?_, ?_⟩
    · simp [mkCreate, file.Create.Run, file.Create.fileRun, file.openFile,
        habs, hflag, IfNotExists, IfExists, hnb, h0]
    · simp [mkCreate, file.Create.Run, file.Create.fileRun, file.openFile,
        habs, hflag, IfNotExists, IfExists, hnb, h0, file.writeAt0]
    · simp [file.filler]
      omega

/-- Witness for the amended C7 creating a 5-byte file. -/
theorem c7_amended_size_gate_witness :
    (file.Create.Run
        (mkCreate "/new" (file.oCREATE ||| file.oWRONLY) 0o644 5)
        sampleFS).1 = .ok () ∧
    (file.Create.Run
        (mkCreate "/new" (file.oCREATE ||| file.oWRONLY) 0o644 5)
        sampleFS).2.1 "/new" =
      .info { mode := perm 0o644,
              size := ((file.filler (5 : Int).toNat).length : Int),
              content := file.filler (5 : Int).toNat } ∧
    ((file.filler (5 : Int).toNat).length : Int) = 5 :=
  (c7_amended_size_gate sampleFS "/new" (file.oCREATE ||| file.oWRONLY)
    0o644 5 (by rfl) (by decide)).2 (by decide) (by decide)

/-- C8: a create-if-missing action reverts its kind to no-action after it
runs, on every return path, for both create types; the evaluators leave
the filesystem unchanged when the target already exists (so the side
effect is not repeated by a second call over the resulting state); and
the caller's options value after a checkFile or checkDirectory call is
exactly the options it passed, Go passing the Options struct by value.
The directory frame part assumes no intent to create and no
replace-if-existing policy, the only configurations whose existing-target
path is side-effect free by design. -/
theorem c8_policy_reversion_and_frame (absF : String → Option String)
    (relF : String → String → Option String)
    (fc : file.Create) (dc : directory.Create) (fs fs' : FS) (path : String)
    (i : FileInfo) (fopts : file.Options) (dopts : directory.Options)
    (hfk : fc.kind = IfNotExists) (hdk : dc.kind = IfNotExists)
    (hinfo : fs' path = .info i)
    (hw : dopts.willCreate = false) (hde : dopts.create.kind ≠ IfExists) :
    ((file.Create.Run fc fs).2.2).kind = NoAction ∧
    ((directory.Create.Run dc fs).2.2).kind = NoAction ∧
    (file.File absF relF fs' path fopts).2 = fs' ∧
    (directory.Directory absF relF fs' path dopts).2 = fs' ∧
    (FileCall absF relF fs' path fopts).2 = fopts ∧
    (DirectoryCall absF relF fs' path dopts).2 = dopts := by
  refine ⟨?_, ?_, ?_, ?_, rfl, rfl⟩
  · unfold file.Create.Run file.Create.fileRun
    simp only [hfk]
    norm_num [IfExists, IfNotExists]
    rcases file.openFile fs fc.path fc.openFlag fc.fileMode with _ | fs1
    · rfl
    · split_ifs <;> rfl
  · unfold directory.Create.Run directory.Create.dirRun
    simp only [hdk]
    norm_num [IfExists, IfNotExists]
    rcases directory.mkdirAll fs dc.path dc.fileMode with e | fs1 <;> rfl
  · unfold file.File
    rw [hinfo]
  · unfold directory.Directory
    by_cases hc : ¬ dopts.create.kind = NoAction ∧ dopts.create.path = "" <;>
      simp [hw, hc, hinfo, hde] <;> split_ifs <;> rfl

/-- Witness for C8 at concrete create actions, snapshot and options. -/
theorem c8_policy_reversion_and_frame_witness :
    ((file.Create.Run
        (mkCreate "/new" (file.oCREATE ||| file.oWRONLY) 0o644 0)
        sampleFS).2.2).kind = NoAction ∧
    ((directory.Create.Run
        { kind := IfNotExists, fileMode := 0o755, path := "/nd" }
        sampleFS).2.2).kind = NoAction ∧
    (file.File absId relConst sampleFS "/d" {}).2 = sampleFS ∧
    (directory.Directory absId relConst sampleFS "/d" {}).2 = sampleFS ∧
    (FileCall absId relConst sampleFS "/d" {}).2 = {} ∧
    (DirectoryCall absId relConst sampleFS "/d" {}).2 = {} :=
  c8_policy_reversion_and_frame absId relConst
    (mkCreate "/new" (file.oCREATE ||| file.oWRONLY) 0o644 0)
    { kind := IfNotExists, fileMode := 0o755, path := "/nd" }
    sampleFS sampleFS "/d" roDirInfo {} {}
    (by rfl) (by rfl) (by rfl) (by rfl) (by decide)

end Checkfs
